import Mathlib

/-!
# Verification of the finance-dashboard metrics engine

Shallow embedding of the computational core of `src/dashboard.py`:
data validation, latest-change metrics, the 7-day rolling mean, daily
percent returns, return statistics (mean / standard deviation / extremes)
and the buy-and-hold investment simulation.

Prices are modelled as rationals (`ℚ`); the Python code uses IEEE floats,
but every claim under scrutiny is about exact arithmetic identities,
counts of defined points, control-flow branches and threshold
comparisons, all of which floats realise exactly on the small decimal
inputs involved.  Pandas' missing value `NaN` is modelled with `Option`
(`none` = absent / NaN).  Rational division by zero is `0` in Lean; the
source never guards any division, and wherever a division-by-zero input
matters below we only ever conclude "no failure is signalled", never a
numeric value, except where the Python float result coincides with the
rational one.
-/

namespace FinanceDashboard

/-- A daily bar of the price series: date (as an ordinal day), closing
price, traded volume.  `dashboard.py` receives these as rows of the
yfinance history frame. -/
structure Bar where
  date : Nat
  close : ℚ
  volume : Nat
deriving Repr, DecidableEq

/-- A price series is the ordered list of bars (`data` in the script),
ordered by date ascending. -/
abbrev PriceSeries := List Bar

/-- The `Close` column: `data['Close']`. -/
def closes (s : PriceSeries) : List ℚ := s.map (·.close)

/-- The error kinds of the engine (spec §7).  The script itself surfaces
only `emptySeries` and `insufficientData` (two `st.error` + `st.stop`
sites, lines 31–37); the remaining constructors exist so that the spec's
demanded failures can be stated and compared against the code. -/
inductive EngineError where
  | emptySeries
  | insufficientData
  | noData
  | invalidPrincipal
  | divisionByZero
deriving Repr, DecidableEq

/-- Lines 31–37: `if data.empty: st.error(...); st.stop()` then
`if len(data) < 2: st.error(...); st.stop()`.  The two stops carry
distinct messages; they are modelled as distinct tagged errors. -/
def validate (s : PriceSeries) : Except EngineError PriceSeries :=
  if s.isEmpty then .error .emptySeries
  else if s.length < 2 then .error .insufficientData
  else .ok s

/-! ## Latest change (lines 42–45) -/

/-- `data['Close'].iloc[-1]`. -/
def current_price (cs : List ℚ) : ℚ := cs.getLastD 0

/-- `data['Close'].iloc[-2]`. -/
def previous_price (cs : List ℚ) : ℚ := cs.dropLast.getLastD 0

/-- `change = current_price - previous_price` (line 44). -/
def change (cs : List ℚ) : ℚ := current_price cs - previous_price cs

/-- `change_pct = (change / previous_price) * 100` (line 45) — computed
with no check that `previous_price` is nonzero. -/
def change_pct (cs : List ℚ) : ℚ := change cs / previous_price cs * 100

/-- The four latest-change metrics the script renders, as one bundle. -/
def latest_change (cs : List ℚ) : ℚ × ℚ × ℚ × ℚ :=
  (current_price cs, previous_price cs, change cs, change_pct cs)

/-- Follows the spec's words for `latestChange` (§4.1): "`changePct` is
undefined (and must be signaled, not silently divided) if
`previous == 0`".  Stated for comparison with `latest_change`, which is
what the code does. -/
def latestChangeSpec (cs : List ℚ) : Except EngineError (ℚ × ℚ × ℚ × ℚ) :=
  if previous_price cs = 0 then .error .divisionByZero
  else .ok (latest_change cs)

/-! ## 7-day moving average (line 66) -/

/-- `data['Close'].rolling(window=w).mean()`: entry `i` is the mean of
the `w` values ending at `i`, `NaN` (`none`) while fewer than `w` values
are available. -/
def rolling_mean (w : ℕ) (cs : List ℚ) : List (Option ℚ) :=
  (List.range cs.length).map fun i =>
    if w ≤ i + 1 then some (((cs.drop (i + 1 - w)).take w).sum / w) else none

/-- `ma7 = data['Close'].rolling(window=7).mean()` (line 66, computed
when `len(data) >= 7`). -/
def ma7 (cs : List ℚ) : List (Option ℚ) := rolling_mean 7 cs

/-! ## Daily returns (line 86) -/

/-- Tail of `pct_change`: each entry is `(c - prev) / prev` for the
running previous value. -/
def pct_change_from (prev : ℚ) : List ℚ → List (Option ℚ)
  | [] => []
  | c :: rest => some ((c - prev) / prev) :: pct_change_from c rest

/-- `Series.pct_change()`: first entry `NaN`, then the relative change
from each value to the next. -/
def pct_change (cs : List ℚ) : List (Option ℚ) :=
  match cs with
  | [] => []
  | c :: rest => none :: pct_change_from c rest

/-- `daily_returns = data['Close'].pct_change() * 100` (line 86);
multiplication maps over the series leaving `NaN` absent. -/
def daily_returns (cs : List ℚ) : List (Option ℚ) :=
  (pct_change cs).map (Option.map (· * 100))

/-! ## Investment calculator (lines 112–116) -/

/-- `data['Close'].iloc[0]` (line 112). -/
def first_price (cs : List ℚ) : ℚ := cs.headD 0

/-- `shares = investment / first_price` (line 113) — no guard on
`first_price` or on the sign of `investment`. -/
def shares (cs : List ℚ) (investment : ℚ) : ℚ := investment / first_price cs

/-- `current_value = shares * current_price` (line 114). -/
def current_value (cs : List ℚ) (investment : ℚ) : ℚ :=
  shares cs investment * current_price cs

/-- `profit = current_value - investment` (line 115). -/
def profit (cs : List ℚ) (investment : ℚ) : ℚ :=
  current_value cs investment - investment

/-- `profit_pct = (profit / investment) * 100` (line 116). -/
def profit_pct (cs : List ℚ) (investment : ℚ) : ℚ :=
  profit cs investment / investment * 100

/-- The investment-calculator bundle (shares, currentValue, profit,
profitPct) exactly as lines 112–116 compute it. -/
def simulate_investment (cs : List ℚ) (investment : ℚ) : ℚ × ℚ × ℚ × ℚ :=
  (shares cs investment, current_value cs investment,
   profit cs investment, profit_pct cs investment)

/-- Follows the spec's words for `simulateInvestment` (§4.1): "fails with
`InvalidPrincipal` if principal ≤ 0; fails with `DivisionByZero` if
`firstClose == 0`".  Stated for comparison with `simulate_investment`,
which is what the code does. -/
def simulateInvestmentSpec (cs : List ℚ) (principal : ℚ) :
    Except EngineError (ℚ × ℚ × ℚ × ℚ) :=
  if principal ≤ 0 then .error .invalidPrincipal
  else if first_price cs = 0 then .error .divisionByZero
  else .ok (simulate_investment cs principal)

/-! ## Key insights: return statistics (lines 137–143) -/

/-- `Series.dropna()`: keep the defined entries. -/
def dropna (rs : List (Option ℚ)) : List ℚ := rs.filterMap id

/-- `Series.mean()`. -/
def list_mean (xs : List ℚ) : ℚ := xs.sum / xs.length

/-- `Series.max()` of a nonempty series (the code only calls it under
`len(clean_returns) > 0`). -/
def list_max : List ℚ → ℚ
  | [] => 0
  | x :: xs => xs.foldl max x

/-- `Series.min()` of a nonempty series. -/
def list_min : List ℚ → ℚ
  | [] => 0
  | x :: xs => xs.foldl min x

/-- The sample variance underlying `Series.std()`.  Pandas' `std`
defaults to `ddof=1`: it divides the sum of squared deviations by
`N - 1` and returns `NaN` when fewer than 2 values remain; `none`
models that `NaN`.  The code's displayed `volatility` is the square
root of this value. -/
def sample_var (xs : List ℚ) : Option ℚ :=
  if 2 ≤ xs.length then
    some ((xs.map fun x => (x - list_mean xs) ^ 2).sum / ((xs.length : ℚ) - 1))
  else none

/-- The population variance (`ddof=0` divisor `N`), stated only to
contrast with `sample_var`. -/
def pop_var (xs : List ℚ) : ℚ :=
  (xs.map fun x => (x - list_mean xs) ^ 2).sum / (xs.length : ℚ)

/-- The statistics block of the Key Insights section (lines 140–143):
volatility is carried as the sample *variance* (`none` = NaN std), the
code's standard deviation being its square root. -/
structure ReturnStats where
  volatility : Option ℚ
  avg_return : ℚ
  max_gain : ℚ
  max_loss : ℚ
deriving Repr, DecidableEq

/-- Lines 137–143: `clean_returns = daily_returns.dropna()`, then
`if len(clean_returns) > 0:` compute std / mean / max / min, else the
section is skipped with no output (`none`). -/
def key_insights (rs : List (Option ℚ)) : Option ReturnStats :=
  let clean := dropna rs
  if 0 < clean.length then
    some ⟨sample_var clean, list_mean clean, list_max clean, list_min clean⟩
  else none

/-- Follows the spec's words for `returnStatistics` (§4.1): statistics
over the defined entries, "Fails with `NoData` if zero defined entries
remain".  Stated for comparison with `key_insights`, which is what the
code does. -/
def returnStatisticsSpec (rs : List (Option ℚ)) : Except EngineError ReturnStats :=
  let clean := dropna rs
  if clean.length = 0 then .error .noData
  else .ok ⟨sample_var clean, list_mean clean, list_max clean, list_min clean⟩

/-! ## Volatility classification (lines 157–162) -/

inductive Volatility where
  | high
  | moderate
  | low
deriving Repr, DecidableEq

/-- Lines 157–162: `if volatility > 4:` high, `elif volatility > 2:`
moderate, `else` low, on the standard-deviation value. -/
def classify_volatility (stdDev : ℚ) : Volatility :=
  if stdDev > 4 then .high
  else if stdDev > 2 then .moderate
  else .low

/-- The same three-way branch applied to the stored sample variance:
since `std = √var` and, for `t ≥ 0`, `√var > t ↔ var > t²`, the
comparisons of lines 157–162 against 4 and 2 become comparisons of the
variance against 16 and 4 (see `classify_var_agrees_with_sqrt`).  A NaN
standard deviation (`none`) compares false to both thresholds, so the
`else` branch (low) runs, exactly as Python's `NaN > 4` / `NaN > 2`
evaluate to `False`. -/
def classify_volatility_var : Option ℚ → Volatility
  | none => .low
  | some v => if v > 16 then .high else if v > 4 then .moderate else .low

/-- Justification for `classify_volatility_var`: for a defined,
nonnegative variance the squared-threshold branch agrees with the
source's comparison of `√var` with the thresholds 4 and 2. -/
theorem classify_var_agrees_with_sqrt (v : ℚ) :
    classify_volatility_var (some v) =
      (if Real.sqrt v > 4 then Volatility.high
       else if Real.sqrt v > 2 then Volatility.moderate
       else Volatility.low) := by
  have h4 : (Real.sqrt v > 4) ↔ ((v : ℝ) > 16) := by
    rw [gt_iff_lt, Real.lt_sqrt (by norm_num)]
    norm_num
  have h2 : (Real.sqrt v > 2) ↔ ((v : ℝ) > 4) := by
    rw [gt_iff_lt, Real.lt_sqrt (by norm_num)]
    norm_num
  have c4 : ((v : ℚ) > 16) ↔ ((v : ℝ) > 16) := by exact_mod_cast Iff.rfl
  have c2 : ((v : ℚ) > 4) ↔ ((v : ℝ) > 4) := by exact_mod_cast Iff.rfl
  simp only [classify_volatility_var]
  by_cases hb : (v : ℚ) > 16
  · rw [if_pos hb, if_pos (h4.mpr (c4.mp hb))]
  · rw [if_neg hb, if_neg (fun h => hb (c4.mpr (h4.mp h)))]
    by_cases hm : (v : ℚ) > 4
    · rw [if_pos hm, if_pos (h2.mpr (c2.mp hm))]
    · rw [if_neg hm, if_neg (fun h => hm (c2.mpr (h2.mp h)))]

/-! ## Supporting lemmas -/

/-- The last close is the close at index `length - 1`. -/
theorem current_price_eq_getD (cs : List ℚ) :
    current_price cs = cs.getD (cs.length - 1) 0 := by
  unfold current_price
  rw [List.getLastD_eq_getLast?, List.getLast?_eq_getElem?, List.getD_eq_getElem?_getD]

/-- For a series of at least two entries, `iloc[-2]` is the close at
index `length - 2`. -/
theorem previous_price_eq_getD (cs : List ℚ) (h2 : 2 ≤ cs.length) :
    previous_price cs = cs.getD (cs.length - 2) 0 := by
  unfold previous_price
  rw [List.getLastD_eq_getLast?, List.getLast?_eq_getElem?, List.length_dropLast,
    List.dropLast_eq_take, List.getElem?_take_of_lt (by omega),
    List.getD_eq_getElem?_getD]
  have h : cs.length - 1 - 1 = cs.length - 2 := by omega
  rw [h]

/-! ## C3: volatility classification thresholds -/

/-- C3: `classify_volatility` returns High exactly when stdDev > 4,
Moderate exactly when 2 < stdDev ≤ 4, Low exactly when stdDev ≤ 2; in
particular 4.0 → Moderate, 2.0 → Low, 4.01 → High. -/
theorem classify_volatility_spec :
    (∀ v : ℚ, (classify_volatility v = .high ↔ 4 < v)
      ∧ (classify_volatility v = .moderate ↔ 2 < v ∧ v ≤ 4)
      ∧ (classify_volatility v = .low ↔ v ≤ 2))
    ∧ classify_volatility 4 = .moderate
    ∧ classify_volatility 2 = .low
    ∧ classify_volatility (401 / 100) = .high := by
  refine ⟨fun v => ?_, by norm_num [classify_volatility],
    by norm_num [classify_volatility], by norm_num [classify_volatility]⟩
  by_cases h1 : 4 < v
  · refine ⟨by simp [classify_volatility, h1], ?_, ?_⟩
    · simp only [classify_volatility, if_pos h1]
      constructor
      · intro h; cases h
      · rintro ⟨-, h⟩; linarith
    · simp only [classify_volatility, if_pos h1]
      constructor
      · intro h; cases h
      · intro h; linarith
  · by_cases h2 : 2 < v
    · refine ⟨?_, ?_, ?_⟩
      · simp only [classify_volatility, if_neg h1, if_pos h2]
        constructor
        · intro h; cases h
        · intro h; exact absurd h h1
      · simp only [classify_volatility, if_neg h1, if_pos h2]
        exact ⟨fun _ => ⟨h2, by linarith⟩, fun _ => by trivial⟩
      · simp only [classify_volatility, if_neg h1, if_pos h2]
        constructor
        · intro h; cases h
        · intro h; linarith
    · refine ⟨?_, ?_, ?_⟩
      · simp only [classify_volatility, if_neg h1, if_neg h2]
        constructor
        · intro h; cases h
        · intro h; exact absurd h h1
      · simp only [classify_volatility, if_neg h1, if_neg h2]
        constructor
        · intro h; cases h
        · rintro ⟨h, -⟩; exact absurd h h2
      · exact ⟨fun _ => by linarith, fun _ => by simp [classify_volatility, h1, h2]⟩

/-! ## C9: validation of the incoming series -/

/-- C9: `validate` fails with `emptySeries` on zero bars and with the
distinct error `insufficientData` on exactly one bar, and succeeds on
every series of at least 2 bars. -/
theorem validate_spec :
    validate [] = .error .emptySeries
    ∧ (∀ b : Bar, validate [b] = .error .insufficientData)
    ∧ (∀ s : PriceSeries, 2 ≤ s.length → validate s = .ok s)
    ∧ EngineError.emptySeries ≠ EngineError.insufficientData := by
  refine ⟨rfl, fun b => rfl, fun s h => ?_, by simp⟩
  obtain ⟨b, t, rfl⟩ : ∃ b t, s = b :: t := by
    cases s with
    | nil => simp at h
    | cons b t => exact ⟨b, t, rfl⟩
  simp only [List.length_cons] at h
  simp [validate]
  omega

/-- Witness for C9: a concrete two-bar series validates successfully. -/
theorem validate_spec_witness :
    validate [⟨0, 100, 0⟩, ⟨1, 110, 0⟩] = .ok [⟨0, 100, 0⟩, ⟨1, 110, 0⟩] :=
  validate_spec.2.2.1 [⟨0, 100, 0⟩, ⟨1, 110, 0⟩] (by simp)

/-! ## C8: doubling the principal doubles the profit -/

/-- C8: for a fixed series, doubling the principal passed to the
investment calculator exactly doubles the resulting profit. -/
theorem profit_scale_invariant (s : PriceSeries) (p : ℚ) (hp : 0 < p) :
    profit (closes s) (2 * p) = 2 * profit (closes s) p := by
  unfold profit current_value shares
  ring

/-- Witness for C8 at a concrete series and principal 1000. -/
theorem profit_scale_invariant_witness :
    (0:ℚ) < 1000
    ∧ profit (closes [⟨0, 100, 0⟩, ⟨1, 120, 0⟩]) (2 * 1000) =
        2 * profit (closes [⟨0, 100, 0⟩, ⟨1, 120, 0⟩]) 1000 :=
  ⟨by norm_num, profit_scale_invariant [⟨0, 100, 0⟩, ⟨1, 120, 0⟩] 1000 (by norm_num)⟩

/-! ## C7: investment simulation formulas and scenario -/

/-- C7: the investment calculator returns shares = principal/firstClose,
currentValue = shares·latestPrice, profit = currentValue − principal and
profitPct = profit/principal·100; the scenario principal 1000, first
close 100, latest 120 yields (10, 1200, 200, 20). -/
theorem simulate_investment_formulas (s : PriceSeries) (p : ℚ) (h2 : 2 ≤ s.length)
    (hp : 0 < p) (hpos : ∀ b ∈ s, 0 < b.close) :
    simulate_investment (closes s) p =
      (p / first_price (closes s),
       p / first_price (closes s) * current_price (closes s),
       p / first_price (closes s) * current_price (closes s) - p,
       (p / first_price (closes s) * current_price (closes s) - p) / p * 100)
    ∧ simulate_investment [100, 120] 1000 = (10, 1200, 200, 20) := by
  refine ⟨rfl, ?_⟩
  have hf : first_price [(100:ℚ), 120] = 100 := rfl
  have hc : current_price [(100:ℚ), 120] = 120 := rfl
  simp only [simulate_investment, shares, current_value, profit, profit_pct, hf, hc]
  norm_num

/-- Witness for C7: the stated scenario, obtained by instantiating the
theorem at a concrete two-bar series. -/
theorem simulate_investment_formulas_witness :
    simulate_investment [100, 120] 1000 = (10, 1200, 200, 20) :=
  (simulate_investment_formulas [⟨0, 100, 0⟩, ⟨1, 120, 0⟩] 1000 (by simp)
    (by norm_num) (by decide)).2

/-! ## C4: latest change performs no zero check (corrected) -/

/-- Counterexample for C4: on the series with closes `[0, 7]` the
second-to-last close is 0, yet `latest_change` returns a plain tuple —
the division is performed with no tagged failure (Python's floats
produce an infinity there; ℚ division by zero is 0), while the spec's
`latestChangeSpec` demands `.error .divisionByZero`. -/
theorem latest_change_counterexample :
    previous_price [0, 7] = 0
    ∧ latest_change [0, 7] = (7, 0, 7 - 0, (7 - 0) / 0 * 100)
    ∧ latestChangeSpec [0, 7] = .error .divisionByZero := by
  refine ⟨rfl, rfl, ?_⟩
  have h0 : previous_price [0, 7] = (0:ℚ) := rfl
  unfold latestChangeSpec
  rw [if_pos h0]

/-- C4 (amended): `latest_change` computes, with no zero check and no
failure channel, from the last two bars in date order (indices
`length−1` and `length−2` of the ascending series): change = latest −
previous and changePct = change/previous·100; the spec's guarded version
coincides with it whenever the previous close is nonzero. -/
theorem latest_change_amended (s : PriceSeries) (h2 : 2 ≤ s.length)
    (hprev : previous_price (closes s) ≠ 0) :
    latest_change (closes s) =
      ((closes s).getD (s.length - 1) 0,
       (closes s).getD (s.length - 2) 0,
       (closes s).getD (s.length - 1) 0 - (closes s).getD (s.length - 2) 0,
       ((closes s).getD (s.length - 1) 0 - (closes s).getD (s.length - 2) 0)
         / (closes s).getD (s.length - 2) 0 * 100)
    ∧ latestChangeSpec (closes s) = .ok (latest_change (closes s)) := by
  have hlen : (closes s).length = s.length := by simp [closes]
  have hc := current_price_eq_getD (closes s)
  have hp := previous_price_eq_getD (closes s) (by omega)
  constructor
  · simp only [latest_change, change_pct, change]
    rw [hc, hp, hlen]
  · unfold latestChangeSpec
    rw [if_neg hprev]

/-- Witness for C4 (amended) at the concrete closes `[110, 99]`:
change = −11 and changePct = −11/110·100 = −10. -/
theorem latest_change_amended_witness :
    latest_change (closes [⟨0, 110, 0⟩, ⟨1, 99, 0⟩]) =
      ((closes [⟨0, 110, 0⟩, ⟨1, 99, 0⟩]).getD 1 0,
       (closes [⟨0, 110, 0⟩, ⟨1, 99, 0⟩]).getD 0 0,
       (closes [⟨0, 110, 0⟩, ⟨1, 99, 0⟩]).getD 1 0
         - (closes [⟨0, 110, 0⟩, ⟨1, 99, 0⟩]).getD 0 0,
       ((closes [⟨0, 110, 0⟩, ⟨1, 99, 0⟩]).getD 1 0
         - (closes [⟨0, 110, 0⟩, ⟨1, 99, 0⟩]).getD 0 0)
         / (closes [⟨0, 110, 0⟩, ⟨1, 99, 0⟩]).getD 0 0 * 100) :=
  (latest_change_amended [⟨0, 110, 0⟩, ⟨1, 99, 0⟩] (by simp)
    (by norm_num [previous_price, closes])).1

/-! ## C6: the investment calculator performs no precondition checks (corrected) -/

/-- Counterexample for C6: at principal −100 (≤ 0) the code returns the
plain tuple (−1, −120, −20, 20) — exactly what the Python floats
produce — with no `InvalidPrincipal` failure, while the spec's guarded
version errors out. -/
theorem simulate_investment_counterexample :
    simulateInvestmentSpec [100, 120] (-100) = .error .invalidPrincipal
    ∧ simulate_investment [100, 120] (-100) = (-1, -120, -20, 20) := by
  constructor
  · unfold simulateInvestmentSpec
    rw [if_pos (by norm_num)]
  · have hf : first_price [(100:ℚ), 120] = 100 := rfl
    have hc : current_price [(100:ℚ), 120] = 120 := rfl
    simp only [simulate_investment, shares, current_value, profit, profit_pct, hf, hc]
    norm_num

/-- C6 (amended): the code performs the computation unguarded for every
principal and every first close, always returning a plain tuple and
never a tagged failure (the UI slider keeps the principal ≥ 100, so a
nonpositive principal cannot arise through the interface); the spec's
guarded version agrees with the code exactly on positive principal and
nonzero first close. -/
theorem simulate_investment_unguarded (cs : List ℚ) (p : ℚ) (hp : 0 < p)
    (hf : first_price cs ≠ 0) :
    simulateInvestmentSpec cs p = .ok (simulate_investment cs p)
    ∧ ∀ q : ℚ, simulate_investment cs q =
        (q / first_price cs, q / first_price cs * current_price cs,
         q / first_price cs * current_price cs - q,
         (q / first_price cs * current_price cs - q) / q * 100) := by
  refine ⟨?_, fun q => rfl⟩
  unfold simulateInvestmentSpec
  rw [if_neg (by linarith), if_neg hf]

/-- Witness for C6 (amended) at closes `[100, 120]` and principal 1000. -/
theorem simulate_investment_unguarded_witness :
    simulateInvestmentSpec [100, 120] 1000 = .ok (simulate_investment [100, 120] 1000) :=
  (simulate_investment_unguarded [100, 120] 1000 (by norm_num)
    (by norm_num [first_price])).1

/-! ## Supporting lemmas for the returns and moving-average claims -/

/-- Each entry of the tail of `pct_change` is defined and equal to the
relative change between consecutive closes. -/
theorem pct_change_from_getElem (p : ℚ) (cs : List ℚ) (i : ℕ) (h : i < cs.length) :
    (pct_change_from p cs)[i]? =
      some (some ((cs.getD i 0 - (p :: cs).getD i 0) / (p :: cs).getD i 0)) := by
  induction cs generalizing p i with
  | nil => simp at h
  | cons c rest ih =>
    cases i with
    | zero => simp [pct_change_from]
    | succ j =>
      have hj : j < rest.length := by simpa using h
      simpa [pct_change_from] using ih c j hj

/-- All entries of the tail of `pct_change` survive `dropna`, whatever
the mapped scaling: there are exactly as many as remaining closes. -/
theorem length_dropna_map_pct (g : ℚ → ℚ) (p : ℚ) (cs : List ℚ) :
    (dropna ((pct_change_from p cs).map (Option.map g))).length = cs.length := by
  induction cs generalizing p with
  | nil => rfl
  | cons c rest ih =>
    simp only [pct_change_from, List.map_cons, Option.map_some', dropna,
      List.filterMap_cons, id_eq, List.length_cons]
    rw [← dropna, ih c]

/-- `daily_returns` on a nonempty close column: a leading absent entry,
then the scaled percent changes. -/
theorem daily_returns_cons (c : ℚ) (rest : List ℚ) :
    daily_returns (c :: rest) =
      none :: (pct_change_from c rest).map (Option.map (· * 100)) := rfl

/-! ## C1: daily returns -/

/-- C1: for a series of at least 2 bars, `daily_returns` has exactly
`length − 1` defined points, the first point is absent, and the defined
point at position `i+1` equals `(close[i+1] − close[i]) / close[i] · 100`. -/
theorem daily_returns_spec (s : PriceSeries) (h2 : 2 ≤ s.length)
    (hpos : ∀ b ∈ s, 0 < b.close) :
    (dropna (daily_returns (closes s))).length = s.length - 1
    ∧ (daily_returns (closes s))[0]? = some none
    ∧ ∀ i, i + 1 < s.length →
        (daily_returns (closes s))[i + 1]? =
          some (some (((closes s).getD (i + 1) 0 - (closes s).getD i 0)
            / (closes s).getD i 0 * 100)) := by
  obtain ⟨b, t, rfl⟩ : ∃ b t, s = b :: t := by
    cases s with
    | nil => simp at h2
    | cons b t => exact ⟨b, t, rfl⟩
  have hcl : closes (b :: t) = b.close :: closes t := rfl
  refine ⟨?_, ?_, ?_⟩
  · rw [hcl, daily_returns_cons]
    simp only [dropna, List.filterMap_cons, id_eq]
    rw [← dropna, length_dropna_map_pct]
    simp [closes]
  · rw [hcl, daily_returns_cons]
    simp
  · intro i hi
    have hlen : i < (closes t).length := by
      simp only [List.length_cons] at hi
      simp only [closes, List.length_map]
      omega
    rw [hcl, daily_returns_cons, List.getElem?_cons_succ, List.getElem?_map,
      pct_change_from_getElem b.close (closes t) i hlen]
    simp [List.getD_cons_succ]

/-- Witness for C1 on the closes `[100, 110, 99]`: two defined points,
leading absent point, and the return at position 1 computed from the
first two closes. -/
theorem daily_returns_spec_witness :
    (dropna (daily_returns (closes [⟨0, 100, 0⟩, ⟨1, 110, 0⟩, ⟨2, 99, 0⟩]))).length = 2
    ∧ (daily_returns (closes [⟨0, 100, 0⟩, ⟨1, 110, 0⟩, ⟨2, 99, 0⟩]))[1]? =
        some (some (((closes [⟨0, 100, 0⟩, ⟨1, 110, 0⟩, ⟨2, 99, 0⟩]).getD 1 0
          - (closes [⟨0, 100, 0⟩, ⟨1, 110, 0⟩, ⟨2, 99, 0⟩]).getD 0 0)
          / (closes [⟨0, 100, 0⟩, ⟨1, 110, 0⟩, ⟨2, 99, 0⟩]).getD 0 0 * 100)) :=
  ⟨(daily_returns_spec [⟨0, 100, 0⟩, ⟨1, 110, 0⟩, ⟨2, 99, 0⟩] (by simp)
      (by decide)).1,
   (daily_returns_spec [⟨0, 100, 0⟩, ⟨1, 110, 0⟩, ⟨2, 99, 0⟩] (by simp)
      (by decide)).2.2 0 (by simp)⟩

/-! ## C2: 7-day moving average -/

/-- Entry `i` of the rolling mean, for `i` within the series. -/
theorem ma7_getElem (cs : List ℚ) (i : ℕ) (h : i < cs.length) :
    (ma7 cs)[i]? =
      some (if 7 ≤ i + 1 then some (((cs.drop (i + 1 - 7)).take 7).sum / (7:ℕ))
            else none) := by
  unfold ma7 rolling_mean
  rw [List.getElem?_map, List.getElem?_range h]
  rfl

/-- Counting lemma: among positions `0, …, n−1`, exactly `n − 6` satisfy
the rolling window's definedness condition `7 ≤ i + 1`. -/
theorem length_filterMap_window (g : ℕ → ℚ) (n : ℕ) :
    ((List.range n).filterMap
      (fun i => if 7 ≤ i + 1 then some (g i) else none)).length = n - 6 := by
  induction n with
  | zero => rfl
  | succ m ih =>
    rw [List.range_succ, List.filterMap_append, List.length_append, ih]
    by_cases h : 7 ≤ m + 1
    · simp only [List.filterMap_cons, h, if_pos, List.filterMap_nil, List.length_cons,
        List.length_nil]
      omega
    · simp only [List.filterMap_cons, if_neg h, List.filterMap_nil, List.length_nil]
      omega

/-- C2: for a series of at least 7 bars, `ma7` has exactly `length − 6`
defined points; the first 6 points are absent; each defined point at
index `i ≥ 6` is the arithmetic mean of the trailing 7 closes ending at
index `i` (a slice of exactly 7 closes). -/
theorem ma7_spec (s : PriceSeries) (h7 : 7 ≤ s.length) :
    (dropna (ma7 (closes s))).length = s.length - 6
    ∧ (∀ i < 6, (ma7 (closes s))[i]? = some none)
    ∧ ∀ i, 6 ≤ i → i < s.length →
        ((((closes s).drop (i - 6)).take 7).length = 7
        ∧ (ma7 (closes s))[i]? =
            some (some (list_mean (((closes s).drop (i - 6)).take 7)))) := by
  have hlen : (closes s).length = s.length := by simp [closes]
  refine ⟨?_, ?_, ?_⟩
  · unfold dropna ma7 rolling_mean
    rw [List.filterMap_map]
    have hcount := length_filterMap_window
      (fun i => (((closes s).drop (i + 1 - 7)).take 7).sum / (7:ℕ)) (closes s).length
    simpa [Function.id_comp, hlen] using hcount
  · intro i hi
    rw [ma7_getElem (closes s) i (by omega), if_neg (by omega)]
  · intro i h6 hil
    have hslice : (((closes s).drop (i - 6)).take 7).length = 7 := by
      simp only [List.length_take, List.length_drop, hlen]
      omega
    refine ⟨hslice, ?_⟩
    rw [ma7_getElem (closes s) i (by omega), if_pos (by omega)]
    have harg : i + 1 - 7 = i - 6 := by omega
    rw [harg]
    unfold list_mean
    rw [hslice]

/-- Witness for C2 on a concrete 7-bar series: one defined point, six
leading absent points (sampled at index 0), and the mean of all 7 closes
at index 6. -/
theorem ma7_spec_witness :
    (dropna (ma7 (closes [⟨0, 1, 0⟩, ⟨1, 2, 0⟩, ⟨2, 3, 0⟩, ⟨3, 4, 0⟩, ⟨4, 5, 0⟩,
        ⟨5, 6, 0⟩, ⟨6, 7, 0⟩]))).length = 1
    ∧ (ma7 (closes [⟨0, 1, 0⟩, ⟨1, 2, 0⟩, ⟨2, 3, 0⟩, ⟨3, 4, 0⟩, ⟨4, 5, 0⟩,
        ⟨5, 6, 0⟩, ⟨6, 7, 0⟩]))[0]? = some none
    ∧ (ma7 (closes [⟨0, 1, 0⟩, ⟨1, 2, 0⟩, ⟨2, 3, 0⟩, ⟨3, 4, 0⟩, ⟨4, 5, 0⟩,
        ⟨5, 6, 0⟩, ⟨6, 7, 0⟩]))[6]? =
        some (some (list_mean (((closes [⟨0, 1, 0⟩, ⟨1, 2, 0⟩, ⟨2, 3, 0⟩, ⟨3, 4, 0⟩,
          ⟨4, 5, 0⟩, ⟨5, 6, 0⟩, ⟨6, 7, 0⟩]).drop 0).take 7))) :=
  ⟨(ma7_spec _ (by simp)).1,
   (ma7_spec _ (by simp)).2.1 0 (by norm_num),
   ((ma7_spec [⟨0, 1, 0⟩, ⟨1, 2, 0⟩, ⟨2, 3, 0⟩, ⟨3, 4, 0⟩, ⟨4, 5, 0⟩, ⟨5, 6, 0⟩,
      ⟨6, 7, 0⟩] (by simp)).2.2 6 (by norm_num) (by simp)).2⟩

/-! ## C5: return statistics over defined entries only (corrected) -/

/-- Counterexample for C5: on a returns sequence whose single entry is
absent, zero defined entries remain, and the code's Key-Insights block
renders nothing at all (`none`, no message, no failure value), while the
spec's `returnStatisticsSpec` demands the surfaced tagged error
`.noData`. -/
theorem return_statistics_counterexample :
    dropna [none] = ([] : List ℚ)
    ∧ key_insights [(none : Option ℚ)] = none
    ∧ returnStatisticsSpec [(none : Option ℚ)] = .error .noData :=
  ⟨rfl, rfl, rfl⟩

/-- C5 (amended): the Key-Insights statistics are computed over only the
defined daily-return entries — a leading absent entry never changes any
of the four statistics — and whenever zero defined entries remain the
code silently skips the section (`none`), surfacing no error; when at
least one defined entry remains it reports sample variance (std² with
N−1 divisor), mean, max and min over exactly the defined entries. -/
theorem return_statistics_amended :
    (∀ rs : List (Option ℚ), key_insights (none :: rs) = key_insights rs)
    ∧ (∀ rs : List (Option ℚ), dropna rs = [] → key_insights rs = none)
    ∧ (∀ rs : List (Option ℚ), dropna rs ≠ [] →
        key_insights rs = some ⟨sample_var (dropna rs), list_mean (dropna rs),
          list_max (dropna rs), list_min (dropna rs)⟩) := by
  refine ⟨fun rs => ?_, fun rs h => ?_, fun rs h => ?_⟩
  · unfold key_insights
    simp [dropna, List.filterMap_cons]
  · simp [key_insights, h]
  · have hlen : 0 < (dropna rs).length := List.length_pos.mpr h
    simp [key_insights, hlen]

/-- Witness for C5 (amended): a leading absent entry leaves the block's
output unchanged; the empty returns sequence is silently skipped; a
single defined return of 3 yields the four statistics over `[3]`. -/
theorem return_statistics_amended_witness :
    key_insights [none, some 3] = key_insights [some 3]
    ∧ key_insights ([] : List (Option ℚ)) = none
    ∧ key_insights [some 3] = some ⟨sample_var (dropna [some 3]),
        list_mean (dropna [some 3]), list_max (dropna [some 3]),
        list_min (dropna [some 3])⟩ :=
  ⟨return_statistics_amended.1 [some 3],
   return_statistics_amended.2.1 [] rfl,
   return_statistics_amended.2.2 [some 3] (by simp [dropna])⟩

/-! ## C10: sample standard deviation and the two-bar series -/

/-- C10: pandas' default `std` is the sample one — on `[0, 2]` the
sample variance (N−1 divisor) is 2 where the population variance is 1 —
so a series of exactly 2 bars leaves one defined return, its sample
variance/standard deviation is NaN (`none`), and the volatility
classification falls through both `>` comparisons to Low. -/
theorem sample_std_two_bar_low :
    (∀ s : PriceSeries, s.length = 2 →
      (dropna (daily_returns (closes s))).length = 1
      ∧ sample_var (dropna (daily_returns (closes s))) = none
      ∧ classify_volatility_var (sample_var (dropna (daily_returns (closes s)))) = .low)
    ∧ sample_var [0, 2] = some 2
    ∧ pop_var [0, 2] = 1 := by
  refine ⟨fun s h => ?_, ?_, ?_⟩
  · obtain ⟨b1, b2, rfl⟩ : ∃ b1 b2, s = [b1, b2] := by
      cases s with
      | nil => simp at h
      | cons b1 t =>
        cases t with
        | nil => simp at h
        | cons b2 u =>
          cases u with
          | nil => exact ⟨b1, b2, rfl⟩
          | cons b3 v => simp at h
    exact ⟨rfl, rfl, rfl⟩
  · have hmean : list_mean [0, 2] = 1 := by
      norm_num [list_mean]
    rw [sample_var, if_pos (by norm_num)]
    rw [List.map_cons, List.map_cons, List.map_nil, hmean]
    norm_num
  · have hmean : list_mean [0, 2] = 1 := by
      norm_num [list_mean]
    rw [pop_var, List.map_cons, List.map_cons, List.map_nil, hmean]
    norm_num

/-- Witness for C10 on the concrete two-bar series with closes
`[100, 110]`. -/
theorem sample_std_two_bar_low_witness :
    (dropna (daily_returns (closes [⟨0, 100, 0⟩, ⟨1, 110, 0⟩]))).length = 1
    ∧ sample_var (dropna (daily_returns (closes [⟨0, 100, 0⟩, ⟨1, 110, 0⟩]))) = none
    ∧ classify_volatility_var
        (sample_var (dropna (daily_returns (closes [⟨0, 100, 0⟩, ⟨1, 110, 0⟩])))) = .low :=
  sample_std_two_bar_low.1 [⟨0, 100, 0⟩, ⟨1, 110, 0⟩] rfl

end FinanceDashboard
